import Mathlib

/-!
Verification development for the INDRA network search query pipeline
(indra_network_search).  The Python sources under
indra_network_search/{data_models,util,query,query_handler,result_handler}.py
are shallowly embedded below: pydantic models become structures, the
result-manager iteration loops become recursive functions over the lazy
algorithm output (modelled as a list of raw paths), machine floats become
rationals, and raising an exception becomes an Except value.
-/

namespace IndraNet

/-- Node handle of the in-memory graphs: a plain name for the unsigned
graph, a (name, sign) pair for the signed-node graph
(Union[str, Tuple[str, int]] in the sources). -/
inductive StrNode where
  | unsigned (name : String)
  | signed (name : String) (sign : Nat)
deriving DecidableEq, Repr

/-- Display name of a node handle. -/
def StrNode.name : StrNode → String
  | .unsigned n => n
  | .signed n _ => n

/-- Sign of a node handle, none for unsigned handles. -/
def StrNode.signOpt : StrNode → Option Nat
  | .unsigned _ => none
  | .signed _ s => some s

/-- Raw statement dict stored on a graph edge (the dicts in
edge['statements']).  Beliefs and weights are floats in the source and are
modelled as rationals. -/
structure StmtDict where
  stmt_type : String
  evidence_count : Nat
  stmt_hash : Int
  source_counts : List (String × Nat)
  belief : Rat
  curated : Bool
  english : String
  weight : Option Rat := none
  residue : Option String := some ""
  position : Option String := some ""
  initial_sign : Option Int := none
deriving DecidableEq, Repr

/-- data_models.StmtData: a validated statement record plus its linkout
URL.  The pydantic shape validation cannot fail in this typed embedding,
so the ValidationError branch of ResultManager._get_stmt_data is absent. -/
structure StmtData where
  stmt_type : String
  evidence_count : Nat
  stmt_hash : Int
  source_counts : List (String × Nat)
  belief : Rat
  curated : Bool
  english : String
  weight : Option Rat := none
  residue : Option String := some ""
  position : Option String := some ""
  initial_sign : Option Int := none
  db_url_hash : String
deriving DecidableEq, Repr

/-- data_models.Node.  The namespace field is called nameSpace because
namespace is a Lean keyword; name is Optional in pydantic but every Node
built by the result handler carries a name. -/
structure Node where
  name : String
  nameSpace : String
  identifier : String
  lookup : Option String := none
  sign : Option Nat := none
deriving DecidableEq, Repr

/-- data_models.EdgeData.  The source stores the endpoint pair as a
two-element list; it is modelled as an ordered pair.  The statements dict
(keyed by statement type, insertion ordered) is an association list.
context_weight is Union[str, float] with default 'N/A' in the source;
none models 'N/A'. -/
structure EdgeData where
  edge : Node × Node
  statements : List (String × List StmtData)
  belief : Rat
  weight : Rat
  sign : Option Nat := none
  context_weight : Option Rat := none
  db_url_edge : String
deriving DecidableEq, Repr

/-- EdgeData.is_empty from data_models.py. -/
def EdgeData.is_empty (ed : EdgeData) : Bool := ed.statements.length == 0

/-- data_models.EdgeDataByHash: statements keyed by statement hash. -/
structure EdgeDataByHash where
  edge : Node × Node
  stmts : List (Int × StmtData)
  belief : Rat
  weight : Rat
  db_url_edge : String
deriving DecidableEq, Repr

/-- data_models.Path: node list plus co-indexed edge data. -/
structure Path where
  path : List Node
  edge_data : List EdgeData
deriving DecidableEq, Repr

/-- data_models.PathResultData.  The paths dict keyed by node count is an
insertion-ordered association list. -/
structure PathResultData where
  source : Option Node := none
  target : Option Node := none
  paths : List (Nat × List Path)
deriving DecidableEq, Repr

/-- Node attributes stored in the graph (graph.nodes[n]); either of the
ns and id entries may be missing. -/
structure NodeAttr where
  ns : Option String := none
  id : Option String := none
deriving DecidableEq, Repr

/-- Edge attributes stored in the graph (graph.edges[(u, v)]). -/
structure EdgeAttr where
  statements : List StmtDict
  belief : Rat
  weight : Rat
  context_weight : Option Rat := none
deriving DecidableEq, Repr

/-- The read-only graph store: node and edge attribute maps as
association lists, plus the external identifiers-URL service
(depmap_analysis famplex get_identifiers_url) as an oracle function. -/
structure Graph where
  nodes : List (StrNode × NodeAttr)
  edges : List ((StrNode × StrNode) × EdgeAttr)
  identifiersUrl : String → String → Option String := fun _ _ => none

/-- Attribute lookup graph.nodes.get(node, dict()). -/
def Graph.nodeAttr (g : Graph) (n : StrNode) : Option NodeAttr :=
  (g.nodes.find? (fun kv => kv.1 == n)).map (·.2)

/-- Attribute lookup for graph.edges[(u, v)]; none models the KeyError
for a missing edge (paths emitted by the algorithms only traverse existing
edges, so the branch is unreachable on real algorithm output). -/
def Graph.edgeAttr (g : Graph) (e : StrNode × StrNode) : Option EdgeAttr :=
  (g.edges.find? (fun kv => kv.1 == e)).map (·.2)

/-- data_models.DEFAULT_TIMEOUT. -/
def DEFAULT_TIMEOUT : Rat := 30

/-- data_models.FilterOptions with its defaults. -/
structure FilterOptions where
  exclude_stmts : List String := []
  hash_blacklist : List Int := []
  allowed_ns : List String := []
  node_blacklist : List String := []
  path_length : Option Nat := none
  belief_cutoff : Rat := 0
  curated_db_only : Bool := false
  max_paths : Nat := 50
  cull_best_node : Option Nat := none
  weighted : Bool := false
  context_weighted : Bool := false
  overall_weighted : Bool := false
deriving DecidableEq, Repr

/-- FilterOptions.no_filters. -/
def FilterOptions.noFilters (fo : FilterOptions) : Bool :=
  fo.exclude_stmts.isEmpty && fo.hash_blacklist.isEmpty &&
  fo.allowed_ns.isEmpty && fo.node_blacklist.isEmpty &&
  fo.path_length.isNone && fo.belief_cutoff == 0 && !fo.curated_db_only

/-- FilterOptions.no_stmt_filters. -/
def FilterOptions.noStmtFilters (fo : FilterOptions) : Bool :=
  fo.belief_cutoff == 0 && fo.exclude_stmts.isEmpty &&
  fo.hash_blacklist.isEmpty && !fo.curated_db_only

/-- FilterOptions.no_node_filters. -/
def FilterOptions.noNodeFilters (fo : FilterOptions) : Bool :=
  fo.node_blacklist.isEmpty && fo.allowed_ns.isEmpty

/-- data_models.NetworkSearchQuery with its field defaults.  path_length,
max_per_node and cull_best_node are non-negative in every accepted query,
so they are carried as Nat; belief_cutoff and user_timeout are
Union[float, bool] in the source and are carried as rationals. -/
structure NetworkSearchQuery where
  source : String := ""
  target : String := ""
  stmt_filter : List String := []
  edge_hash_blacklist : List Int := []
  allowed_ns : List String := []
  node_blacklist : List String := []
  path_length : Option Nat := none
  depth_limit : Nat := 2
  sign : Option String := none
  weighted : Bool := false
  belief_cutoff : Rat := 0
  curated_db_only : Bool := false
  fplx_expand : Bool := false
  k_shortest : Nat := 50
  max_per_node : Nat := 5
  cull_best_node : Option Nat := none
  mesh_ids : List String := []
  strict_mesh_id_filtering : Bool := false
  const_c : Int := 1
  const_tk : Int := 10
  user_timeout : Rat := DEFAULT_TIMEOUT
  two_way : Bool := false
  shared_regulators : Bool := false
  terminal_ns : List String := []
  format : String := "json"
deriving DecidableEq, Repr

/-- Model validation of NetworkSearchQuery: the three field validators
(is_positive_int, is_pos_int, is_int_gt2) in declaration order, plus the
constr(to_lower=True) normalisation of stmt_filter and allowed_ns.
There is no validator involving source or target. -/
def networkSearchQueryValidate (q : NetworkSearchQuery) :
    Except String NetworkSearchQuery :=
  if q.path_length.any (fun pl => pl < 1) then
    .error "path_length must be integer > 0"
  else if q.max_per_node < 1 then
    .error "max_per_node must be integer > 0"
  else if q.cull_best_node.any (fun cbn => cbn < 2) then
    .error "cull_best_node must be integer > 1 if provided"
  else
    .ok { q with stmt_filter := q.stmt_filter.map String.toLower,
                 allowed_ns := q.allowed_ns.map String.toLower }

/-- util.is_context_weighted. -/
def is_context_weighted (mesh_id_list : List String)
    (strict_filtering : Bool) : Bool :=
  !mesh_id_list.isEmpty && !strict_filtering

/-- util.is_weighted. -/
def is_weighted (weighted : Bool) (mesh_ids : List String)
    (strict_mesh_filtering : Bool) : Bool :=
  if !mesh_ids.isEmpty then
    weighted || is_context_weighted mesh_ids strict_mesh_filtering
  else
    weighted

/-- NetworkSearchQuery.is_overall_weighted. -/
def NetworkSearchQuery.is_overall_weighted (q : NetworkSearchQuery) : Bool :=
  is_weighted q.weighted q.mesh_ids q.strict_mesh_id_filtering

/-- NetworkSearchQuery.get_filter_options. -/
def NetworkSearchQuery.get_filter_options (q : NetworkSearchQuery) :
    FilterOptions :=
  { exclude_stmts := q.stmt_filter
    hash_blacklist := q.edge_hash_blacklist
    allowed_ns := q.allowed_ns
    node_blacklist := q.node_blacklist
    path_length := q.path_length
    belief_cutoff := q.belief_cutoff
    curated_db_only := q.curated_db_only
    max_paths := q.k_shortest
    cull_best_node := q.cull_best_node
    overall_weighted :=
      is_weighted q.weighted q.mesh_ids q.strict_mesh_id_filtering
    weighted := q.weighted
    context_weighted :=
      is_context_weighted q.mesh_ids q.strict_mesh_id_filtering }

/-- NetworkSearchQuery.reverse_search: a copy of the query with source
and target switched (the source implements this as dict-copy excluding
the two fields, then reconstruction with the swapped values). -/
def NetworkSearchQuery.reverse_search (q : NetworkSearchQuery) :
    NetworkSearchQuery :=
  { q with source := q.target, target := q.source }

/-! Query hash (util.sorted_json_string, util.get_query_hash).  The query
dict is a Python json value; bool is kept separate from int because
str(True) renders as True while json ints render as decimal numerals. -/

/-- A Python json value as fed to util.sorted_json_string. -/
inductive PyJson where
  | pyStr (s : String)
  | pyList (xs : List PyJson)
  | pyDict (kvs : List (String × PyJson))
  | pyInt (n : Int)
  | pyFloat (q : Rat)
  | pyBool (b : Bool)
  | pyNone
deriving Repr

/-- Lexicographic comparison of code-point lists (Python string
comparison compares by code point). -/
def codesLe : List Nat → List Nat → Bool
  | [], _ => true
  | _ :: _, [] => false
  | a :: as, b :: bs =>
    if a < b then true else if b < a then false else codesLe as bs

/-- Python string less-or-equal, used by sorted(...) on strings. -/
def pyStrLe (a b : String) : Bool :=
  codesLe (a.data.map Char.toNat) (b.data.map Char.toNat)

/-- Insert into a sorted list, keeping equal elements in order. -/
def insertSorted (x : String) : List String → List String
  | [] => [x]
  | y :: ys => if pyStrLe y x then y :: insertSorted x ys else x :: y :: ys

/-- Python sorted(...) on strings (implemented as insertion sort; only
the sorted result matters, not the algorithm). -/
def pySorted (l : List String) : List String :=
  l.foldr insertSorted []

/-- str(float) rendering; Python repr of floats is approximated by a
plain rational rendering.  No claim constrains the concrete hash value,
only that it is a deterministic function of the dict. -/
def ratFloatStr (q : Rat) : String :=
  if q.den = 1 then toString q.num ++ ".0"
  else toString q.num ++ "/" ++ toString q.den

mutual

/-- util.sorted_json_string: a canonical string for a json value, with
list elements and dict entries sorted as strings. -/
def sortedJsonString : PyJson → String
  | .pyStr s => s
  | .pyList xs =>
    "[" ++ String.intercalate "," (pySorted (sortedJsonList xs)) ++ "]"
  | .pyDict kvs =>
    "\x7b" ++ String.intercalate "," (pySorted (sortedJsonKvs kvs)) ++ "\x7d"
  | .pyInt n => toString n
  | .pyFloat q => ratFloatStr q
  | .pyBool b => if b then "True" else "False"
  | .pyNone => "null"

/-- Canonical strings for the elements of a json list. -/
def sortedJsonList : List PyJson → List String
  | [] => []
  | x :: xs => sortedJsonString x :: sortedJsonList xs

/-- Canonical strings for the entries of a json dict (key prefixed to
the canonicalised value, matching the source). -/
def sortedJsonKvs : List (String × PyJson) → List String
  | [] => []
  | (k, v) :: kvs => (k ++ sortedJsonString v) :: sortedJsonKvs kvs

end

/-- UTF-8 encoding of one code point, as byte values. -/
def utf8Bytes (c : Nat) : List Nat :=
  if c < 128 then [c]
  else if c < 2048 then [192 + c / 64, 128 + c % 64]
  else if c < 65536 then [224 + c / 4096, 128 + (c / 64) % 64, 128 + c % 64]
  else [240 + c / 262144, 128 + (c / 4096) % 64, 128 + (c / 64) % 64,
        128 + c % 64]

/-- The utf-8 byte sequence of a string (str.encode in the source). -/
def strBytes (s : String) : List Nat :=
  (s.data.map (fun ch => utf8Bytes ch.toNat)).flatten

/-- fnvhash.fnv1a_32: 32-bit FNV-1a over a byte sequence. -/
def fnv1a32 (bytes : List Nat) : Nat :=
  bytes.foldl (fun h b => ((h ^^^ b) * 16777619) % 4294967296) 2166136261

/-- util.get_query_hash on an already-built query dict: drop the ignored
keys, canonicalise, hash. -/
def getQueryHash (queryJson : List (String × PyJson))
    (ignoreKeys : List String) : Nat :=
  fnv1a32 (strBytes (sortedJsonString
    (.pyDict (queryJson.filter (fun kv => !ignoreKeys.contains kv.1)))))

/-- NetworkSearchQuery.dict(): the query as a json dict, fields in
declaration order. -/
def NetworkSearchQuery.queryDict (q : NetworkSearchQuery) :
    List (String × PyJson) :=
  [("source", .pyStr q.source),
   ("target", .pyStr q.target),
   ("stmt_filter", .pyList (q.stmt_filter.map .pyStr)),
   ("edge_hash_blacklist", .pyList (q.edge_hash_blacklist.map .pyInt)),
   ("allowed_ns", .pyList (q.allowed_ns.map .pyStr)),
   ("node_blacklist", .pyList (q.node_blacklist.map .pyStr)),
   ("path_length", match q.path_length with
     | some n => .pyInt n
     | none => .pyNone),
   ("depth_limit", .pyInt q.depth_limit),
   ("sign", match q.sign with
     | some s => .pyStr s
     | none => .pyNone),
   ("weighted", .pyBool q.weighted),
   ("belief_cutoff", .pyFloat q.belief_cutoff),
   ("curated_db_only", .pyBool q.curated_db_only),
   ("fplx_expand", .pyBool q.fplx_expand),
   ("k_shortest", .pyInt q.k_shortest),
   ("max_per_node", .pyInt q.max_per_node),
   ("cull_best_node", match q.cull_best_node with
     | some n => .pyInt n
     | none => .pyNone),
   ("mesh_ids", .pyList (q.mesh_ids.map .pyStr)),
   ("strict_mesh_id_filtering", .pyBool q.strict_mesh_id_filtering),
   ("const_c", .pyInt q.const_c),
   ("const_tk", .pyInt q.const_tk),
   ("user_timeout", .pyFloat q.user_timeout),
   ("two_way", .pyBool q.two_way),
   ("shared_regulators", .pyBool q.shared_regulators),
   ("terminal_ns", .pyList (q.terminal_ns.map .pyStr)),
   ("format", .pyStr q.format)]

/-- NetworkSearchQuery.get_hash: query hash ignoring the format field. -/
def NetworkSearchQuery.get_hash (q : NetworkSearchQuery) : Nat :=
  getQueryHash q.queryDict ["format"]

/-! Query planner (query_handler.QueryHandler) and the algorithm
adapters in query.py. -/

/-- Modelled from the spec: SIGNS_TO_INT_SIGN comes from the external
depmap_analysis package; per the spec the wire-level sign is "+", "-",
or absent, mapped to 0, 1 and None respectively (dict .get lookup). -/
def signsToIntSign : Option String → Option Nat
  | some "+" => some 0
  | some "-" => some 1
  | _ => none

/-- The primary path-query families the planner dispatches to. -/
inductive QueryType where
  | shortestSimplePaths
  | bfsSearch
  | openDijkstraSearch
deriving DecidableEq, Repr

/-- query_handler.QueryHandler self.open: exactly one of source and
target is set (bool(source) XOR bool(target)). -/
def queryHandlerOpen (q : NetworkSearchQuery) : Bool :=
  (!q.source.isEmpty) != (!q.target.isEmpty)

/-- query_handler._is_context_weighted on the handler's boolean state. -/
def handlerIsContextWeighted (mesh_id_list strict_filtering : Bool) : Bool :=
  mesh_id_list && !strict_filtering

/-- query_handler._is_weighted on the handler's boolean state. -/
def handlerIsWeighted (weight mesh_ids strict_mesh_id_filtering : Bool) :
    Bool :=
  if mesh_ids then
    weight || handlerIsContextWeighted mesh_ids strict_mesh_id_filtering
  else
    weight

/-- query_handler.QueryHandler._map_to_query_type: non-open queries go
to shortest_simple_paths; open queries go to open_dijkstra_search when
weighted (in the handler sense) and to bfs_search otherwise. -/
def mapToQueryType (q : NetworkSearchQuery) : QueryType :=
  if !queryHandlerOpen q then .shortestSimplePaths
  else if handlerIsWeighted q.weighted (!q.mesh_ids.isEmpty)
      q.strict_mesh_id_filtering then .openDijkstraSearch
  else .bfsSearch

/-- query.Query._get_node_blacklist: the blacklist names unchanged when
empty or the query is unsigned, otherwise the itertools.product of the
names with the signs [0, 1].  The source returns a heterogeneous list of
names or (name, sign) pairs, modelled as StrNode. -/
def NetworkSearchQuery.getNodeBlacklist (q : NetworkSearchQuery) :
    List StrNode :=
  if q.node_blacklist.isEmpty || q.sign.isNone then
    q.node_blacklist.map .unsigned
  else
    q.node_blacklist.flatMap (fun n => [.signed n 0, .signed n 1])

/-- query.get_open_signed_node.  The sign parameter is typed
Optional[int] in the source; PathQuery._get_source_node passes the raw
query sign through, which agrees with the converted value for every
unsigned query (the only kind exercised by the claims below). -/
def getOpenSignedNode (node : String) (reverse : Bool)
    (sign : Option Nat) : StrNode :=
  match sign with
  | none => .unsigned node
  | some s => if reverse then .signed node s else .signed node 0

/-- query.PathQuery._get_source_target for two-endpoint searches: lift
the endpoints into signed handles when a sign is requested (the source
is always lifted to sign 0, the target to the requested sign).  The
ValueError branch for an unknown sign value is unreachable because
signsToIntSign only produces 0 or 1. -/
def pathQueryGetSourceTarget (q : NetworkSearchQuery) : StrNode × StrNode :=
  match signsToIntSign q.sign with
  | some 1 => (.signed q.source 0, .signed q.target 1)
  | some _ => (.signed q.source 0, .signed q.target 0)
  | none => (.unsigned q.source, .unsigned q.target)

/-- query.PathQuery._get_source_node for open searches: pick the set
endpoint and the direction; raises InvalidParametersError when both or
neither endpoint is set. -/
def pathQueryGetSourceNode (q : NetworkSearchQuery) :
    Except String (StrNode × Bool) :=
  if !q.source.isEmpty && q.target.isEmpty then
    .ok (getOpenSignedNode q.source false (signsToIntSign q.sign), false)
  else if q.source.isEmpty && !q.target.isEmpty then
    .ok (getOpenSignedNode q.target true (signsToIntSign q.sign), true)
  else
    .error "Cannot use algorithm with both source and target set."

/-- Arguments a PathQuery hands to its result manager
(query.PathQuery.result_options).  The empty string stands for a falsy
endpoint and is modelled as none. -/
structure ResultOptions where
  filter_options : FilterOptions
  src : Option StrNode
  tgt : Option StrNode
  rev : Bool
deriving Repr

/-- query.PathQuery.result_options.  For open searches the unused side
is the empty string (none); the InvalidParametersError raised by
_get_source_node propagates, in particular when both endpoints are
absent. -/
def pathQueryResultOptions (q : NetworkSearchQuery) :
    Except String ResultOptions :=
  if !q.source.isEmpty && !q.target.isEmpty then
    let st := pathQueryGetSourceTarget q
    .ok { filter_options := q.get_filter_options, src := some st.1,
          tgt := some st.2, rev := false }
  else
    match pathQueryGetSourceNode q with
    | .error e => .error e
    | .ok (start, rev) =>
      .ok { filter_options := q.get_filter_options
            src := if rev then none else some start
            tgt := if rev then some start else none
            rev := rev }

/-- query.pass_stmt: the statement filter used by the BFS edge filter.
Its docstring says it checks an edge statement dict against the
statement-type, hash-blacklist, curated and belief filters, but its body
is a bare return True. -/
def pass_stmt (stmt_dict : StmtDict) (stmt_types : Option (List String))
    (hash_blacklist : Option (List Int)) (check_curated : Bool)
    (belief_cutoff : Rat) : Bool :=
  true

/-- query.BreadthFirstSearchQuery._get_edge_filter: none when no
statement-level filter is requested, otherwise a per-edge predicate that
keeps an edge when any of its statements passes pass_stmt.  A missing
edge raises KeyError in the source; the predicate is only ever called on
existing edges. -/
def getEdgeFilter (q : NetworkSearchQuery) :
    Option (Graph → StrNode → StrNode → Bool) :=
  let stmt_types := if q.stmt_filter.isEmpty then none else some q.stmt_filter
  let hash_blacklist :=
    if q.edge_hash_blacklist.isEmpty then none else some q.edge_hash_blacklist
  if q.belief_cutoff == 0 && stmt_types.isNone && hash_blacklist.isNone &&
      !q.curated_db_only then
    none
  else
    some (fun g u v =>
      match g.edgeAttr (u, v) with
      | some ed => ed.statements.any (fun es =>
          pass_stmt es stmt_types hash_blacklist q.curated_db_only
            q.belief_cutoff)
      | none => false)

/-! Result managers (result_handler.py).  Each manager kind fixes the
_pass_node / _pass_stmt / _remove_used_filters overrides. -/

/-- The result-manager families of result_handler.py. -/
inductive Manager where
  | sspMgr
  | bfsMgr
  | dijkstraMgr
  | sharedMgr
  | ontologyMgr
  | subgraphMgr
deriving DecidableEq, Repr

/-- The per-manager _remove_used_filters: each family resets the filter
fields its algorithm already enforced (the source reconstructs the
FilterOptions from a dict excluding those fields, which yields their
defaults). -/
def removeUsedFilters : Manager → FilterOptions → FilterOptions
  | .sspMgr, fo => { fo with node_blacklist := [] }
  | .bfsMgr, fo => { fo with allowed_ns := [], node_blacklist := [],
                             exclude_stmts := [], hash_blacklist := [],
                             belief_cutoff := 0, curated_db_only := false }
  | .dijkstraMgr, fo => { fo with node_blacklist := [],
                                  cull_best_node := none }
  | .sharedMgr, _ => {}
  | .ontologyMgr, _ => {}
  | .subgraphMgr, _ => { exclude_stmts := ["fplx"] }

/-- The per-manager _pass_node.  SSP and Dijkstra keep a node only when
its namespace is in allowed_ns; BFS, shared-interactors, ontology and
subgraph managers accept every node (their algorithms or contracts
already handled node filtering). -/
def passNode : Manager → FilterOptions → Node → Bool
  | .sspMgr, fo, node => fo.allowed_ns.contains node.nameSpace
  | .dijkstraMgr, fo, node => fo.allowed_ns.contains node.nameSpace
  | _, _, _ => true

/-- The statement checks shared verbatim by
ShortestSimplePathsResultManager._pass_stmt and
DijkstraResultManager._pass_stmt: statement type, belief cutoff,
curated flag, hash blacklist, in that order. -/
def pathStmtChecks (fo : FilterOptions) (sd : StmtDict) : Bool :=
  if !fo.exclude_stmts.isEmpty && fo.exclude_stmts.contains sd.stmt_type then
    false
  else if fo.belief_cutoff > 0 && fo.belief_cutoff > sd.belief then
    false
  else if fo.curated_db_only && !sd.curated then
    false
  else if !fo.hash_blacklist.isEmpty &&
      fo.hash_blacklist.contains sd.stmt_hash then
    false
  else
    true

/-- The per-manager _pass_stmt.  BFS, shared-interactors and ontology
managers accept every statement; the subgraph manager only checks the
statement-type exclusion. -/
def passStmt : Manager → FilterOptions → StmtDict → Bool
  | .sspMgr, fo, sd => pathStmtChecks fo sd
  | .dijkstraMgr, fo, sd => pathStmtChecks fo sd
  | .subgraphMgr, fo, sd =>
    !(!fo.exclude_stmts.isEmpty && fo.exclude_stmts.contains sd.stmt_type)
  | _, _, _ => true

/-- result_handler.DB_URL_HASH applied to a statement hash. -/
def dbUrlHash (stmt_hash : Int) : String :=
  "https://db.indra.bio/statements/from_hash/" ++ toString stmt_hash ++
    "?format=html"

/-- result_handler.DB_URL_EDGE applied to the endpoint ns/id pairs. -/
def dbUrlEdge (subj_ns subj_id obj_ns obj_id : String) : String :=
  "https://db.indra.bio/statements/from_agents?subject=" ++ subj_id ++ "@" ++
    subj_ns ++ "&object=" ++ obj_id ++ "@" ++ obj_ns ++ "&format=html"

/-- ResultManager._get_node: resolve a node handle against the graph
attributes; absent ns or id yields none; with apply_filter the node must
additionally pass the manager's node filter unless no node filters are
set.  The lookup URL comes from the external identifiers service (or
the empty string). -/
def getNode (g : Graph) (fo : FilterOptions) (mgr : Manager)
    (node_name : StrNode) (apply_filter : Bool := true) : Option Node :=
  let attr := g.nodeAttr node_name
  match attr.bind (·.ns), attr.bind (·.id) with
  | some db_ns, some db_id =>
    let node : Node := { name := node_name.name, nameSpace := db_ns,
                         identifier := db_id, sign := node_name.signOpt }
    if !apply_filter then
      some { node with lookup := some ((g.identifiersUrl db_ns db_id).getD "") }
    else if fo.noNodeFilters || passNode mgr fo node then
      some { node with lookup := some ((g.identifiersUrl db_ns db_id).getD "") }
    else
      none
  | _, _ => none

/-- ResultManager._get_stmt_data: drop the statement when statement
filters are active and the manager's _pass_stmt rejects it, otherwise
build the StmtData record with its hash linkout. -/
def getStmtData (fo : FilterOptions) (mgr : Manager) (sd : StmtDict) :
    Option StmtData :=
  if !fo.noStmtFilters && !passStmt mgr fo sd then
    none
  else
    some { stmt_type := sd.stmt_type, evidence_count := sd.evidence_count,
           stmt_hash := sd.stmt_hash, source_counts := sd.source_counts,
           belief := sd.belief, curated := sd.curated, english := sd.english,
           weight := sd.weight, residue := sd.residue,
           position := sd.position, initial_sign := sd.initial_sign,
           db_url_hash := dbUrlHash sd.stmt_hash }

/-- Group surviving statements by statement type, preserving dict
insertion order (the try/except KeyError append in _get_edge_data). -/
def addToGroup (acc : List (String × List StmtData)) (sd : StmtData) :
    List (String × List StmtData) :=
  if acc.any (fun kv => kv.1 == sd.stmt_type) then
    acc.map (fun kv =>
      if kv.1 == sd.stmt_type then (kv.1, kv.2 ++ [sd]) else kv)
  else
    acc ++ [(sd.stmt_type, [sd])]

/-- The statement filtering and grouping step of _get_edge_data: map
each raw statement through _get_stmt_data and group the survivors by
statement type. -/
def filterGroupStmts (fo : FilterOptions) (mgr : Manager)
    (stmts : List StmtDict) : List (String × List StmtData) :=
  stmts.foldl
    (fun acc sd =>
      match getStmtData fo mgr sd with
      | some st => addToGroup acc st
      | none => acc) []

/-- The tail of _get_edge_data once the endpoint nodes, the edge
attributes and the grouped statements are at hand: drop the edge when no
statement survived, otherwise attach belief, weight, the XOR sign (when
both endpoints are signed), a truthy context weight, and the edge
linkout URL. -/
def assembleEdgeData (a_node b_node : Node) (ea : EdgeAttr)
    (stmt_dict : List (String × List StmtData)) : Option EdgeData :=
  if stmt_dict.isEmpty then
    none
  else
    let sign : Option Nat :=
      match a_node.sign, b_node.sign with
      | some s1, some s2 => some (if s1 != s2 then 1 else 0)
      | _, _ => none
    let context_weight :=
      match ea.context_weight with
      | some cw => if cw != 0 then some cw else none
      | none => none
    some { edge := (a_node, b_node), statements := stmt_dict,
           belief := ea.belief, weight := ea.weight, sign := sign,
           context_weight := context_weight,
           db_url_edge := dbUrlEdge a_node.nameSpace a_node.identifier
             b_node.nameSpace b_node.identifier }

/-- ResultManager._get_edge_data: resolve both endpoint nodes (with the
manager's filter), fetch the edge attributes (the str_edge key the
source computes from the resolved nodes equals the original handle
pair), filter and group the statements, and build the edge record
unless every statement was filtered out. -/
def getEdgeData (g : Graph) (fo : FilterOptions) (mgr : Manager)
    (a b : StrNode) : Option EdgeData :=
  match getNode g fo mgr a true, getNode g fo mgr b true with
  | some a_node, some b_node =>
    match g.edgeAttr (a, b) with
    | none => none
    | some ed =>
      assembleEdgeData a_node b_node ed (filterGroupStmts fo mgr ed.statements)
  | _, _ => none

/-- The by-hash statement collection of _get_edge_data_by_hash: keep
each surviving statement once, keyed by hash. -/
def filterStmtsByHash (fo : FilterOptions) (stmts : List StmtDict) :
    List (Int × StmtData) :=
  stmts.foldl
    (fun acc sd =>
      match getStmtData fo .subgraphMgr sd with
      | some st =>
        if acc.any (fun kv => kv.1 == st.stmt_hash) then acc
        else acc ++ [(st.stmt_hash, st)]
      | none => acc) []

/-- The tail of _get_edge_data_by_hash: drop the edge when no statement
survived, otherwise build the by-hash edge record. -/
def assembleEdgeDataByHash (a_node b_node : Node) (ea : EdgeAttr)
    (stmt_dict : List (Int × StmtData)) : Option EdgeDataByHash :=
  if stmt_dict.isEmpty then
    none
  else
    some { edge := (a_node, b_node), stmts := stmt_dict,
           belief := ea.belief, weight := ea.weight,
           db_url_edge := dbUrlEdge a_node.nameSpace a_node.identifier
             b_node.nameSpace b_node.identifier }

/-- SubgraphResultManager._get_edge_data_by_hash: like _get_edge_data
but statements are deduplicated by hash, and an endpoint may arrive
pre-resolved as a Node (from available_nodes) instead of a name. -/
def getEdgeDataByHash (g : Graph) (fo : FilterOptions)
    (a b : Sum Node StrNode) : Option EdgeDataByHash :=
  let resolve : Sum Node StrNode → Option Node := fun x =>
    match x with
    | .inl n => some n
    | .inr s => getNode g fo .subgraphMgr s true
  match resolve a, resolve b with
  | some a_node, some b_node =>
    match g.edgeAttr (.unsigned a_node.name, .unsigned b_node.name) with
    | none => none
    | some ed =>
      assembleEdgeDataByHash a_node b_node ed
        (filterStmtsByHash fo ed.statements)
  | _, _ => none

/-! The PathResultManager loop (_build_paths).  The lazy algorithm
output is modelled as the list of raw node paths it would yield; this
universally quantifies over every possible algorithm behaviour,
including any reaction to the cull-best-node feedback values (the
_get_cull_values send branch only selects the generator's continuation
and produces no other effect in the manager, so it needs no separate
model).  Wall-clock readings are supplied as a list of elapsed times,
one per loop iteration. -/

/-- The deadline check guarding each loop iteration: Python's
`if self.timeout and elapsed > timedelta(seconds=self.timeout)`, where a
zero timeout is falsy and disables the check entirely. -/
def timeoutHit (timeout elapsed : Rat) : Bool :=
  timeout != 0 && elapsed > timeout

/-- Truthiness of the path_length filter field
(`if self.filter_options.path_length`). -/
def pathLengthTruthy : Option Nat → Bool
  | some l => l != 0
  | none => false

/-- Outcome of the path-length gate in _build_paths: skip shorter paths,
break on longer ones, keep exact matches; inactive when path_length is
falsy or the search is overall-weighted. -/
inductive LenGate where
  | skip
  | brk
  | keep
deriving DecidableEq, Repr

/-- The path-length gate of _build_paths applied to one raw path. -/
def lenGate (fo : FilterOptions) (n : Nat) : LenGate :=
  if pathLengthTruthy fo.path_length && !fo.overall_weighted then
    match fo.path_length with
    | some l => if n < l then .skip else if l < n then .brk else .keep
    | none => .keep
  else
    .keep

/-- Indexing a built path into self.paths[len(path)] (insertion-ordered
dict of lists, appended to on key collision). -/
def insertPath (acc : List (Nat × List Path)) (k : Nat) (pd : Path) :
    List (Nat × List Path) :=
  if acc.any (fun kv => kv.1 == k) then
    acc.map (fun kv => if kv.1 == k then (kv.1, kv.2 ++ [pd]) else kv)
  else
    acc ++ [(k, [pd])]

/-- The inner edge loop of _build_paths over the consecutive node pairs
of one raw path: none when some edge is filtered out (or empty). -/
def buildEdgeDataList (g : Graph) (fo : FilterOptions) (mgr : Manager) :
    List (StrNode × StrNode) → Option (List EdgeData)
  | [] => some []
  | (s, o) :: rest =>
    match getEdgeData g fo mgr s o with
    | none => none
    | some ed =>
      if ed.is_empty then none
      else (buildEdgeDataList g fo mgr rest).map (fun eds => ed :: eds)

/-- The node list _build_paths accumulates alongside a nonempty edge
list: the subject of every edge followed by the object of the last
edge. -/
def nodePathOf (e : EdgeData) (es : List EdgeData) : List Node :=
  (e :: es).map (fun ed => ed.edge.1) ++ [(es.getLastD e).edge.2]

/-- One raw path through the edge loop of _build_paths: none when the
path was filtered out, or when the loop never ran (a raw path with
fewer than two nodes leaves edge_data as None and the path is
skipped). -/
def assemblePath (g : Graph) (fo : FilterOptions) (mgr : Manager)
    (path : List StrNode) : Option Path :=
  match buildEdgeDataList g fo mgr (path.zip path.tail) with
  | none => none
  | some [] => none
  | some (e :: es) => some { path := nodePathOf e es, edge_data := e :: es }

/-- The main loop of PathResultManager._build_paths over the raw path
generator: check the deadline and the max_paths cap, pull the next raw
path (reversing it for reversed open searches), apply the path-length
gate, assemble the edge data, and index the built path by node count.
Returns the paths dict and the timed_out flag. -/
def buildPathsAux (g : Graph) (fo : FilterOptions) (mgr : Manager)
    (rev : Bool) (timeout : Rat) :
    List (List StrNode) → List Rat → Nat → List (Nat × List Path) →
    List (Nat × List Path) × Bool
  | gen, elapsed, pathsBuilt, acc =>
    if timeoutHit timeout (elapsed.headD 0) then (acc, true)
    else if fo.max_paths ≤ pathsBuilt then (acc, false)
    else
      match gen with
      | [] => (acc, false)
      | p :: rest =>
        let path := if rev then p.reverse else p
        match lenGate fo path.length with
        | .brk => (acc, false)
        | .skip =>
          buildPathsAux g fo mgr rev timeout rest elapsed.tail pathsBuilt acc
        | .keep =>
          match assemblePath g fo mgr path with
          | none =>
            buildPathsAux g fo mgr rev timeout rest elapsed.tail pathsBuilt acc
          | some pd =>
            buildPathsAux g fo mgr rev timeout rest elapsed.tail
              (pathsBuilt + 1) (insertPath acc path.length pd)

/-- PathResultManager.__init__, endpoint part: resolving source and
target with apply_filter=False; a ValueError is raised when neither
endpoint is given, and again when neither given endpoint resolves in
the graph. -/
def pathResultManagerEndpoints (g : Graph) (fo : FilterOptions)
    (mgr : Manager) (src tgt : Option StrNode) :
    Except String (Option Node × Option Node) :=
  if src.isNone && tgt.isNone then
    .error "Must provide at least source or target for path results"
  else
    let s := src.bind (fun x => getNode g fo mgr x false)
    let t := tgt.bind (fun x => getNode g fo mgr x false)
    if s.isNone && t.isNone then
      .error "Failed to set source and/or target"
    else
      .ok (s, t)

/-- The result of running one path result manager. -/
structure PathRunResult where
  path_data : PathResultData
  timed_out : Bool
deriving DecidableEq, Repr

/-- A full path-result-manager run for one query: derive the filter
options, subtract the manager's already-enforced filters, resolve the
endpoints, and drive _build_paths over the generator output.
PathResultManager.__init__ calls ResultManager.__init__ without a
timeout argument, so every path manager runs with DEFAULT_TIMEOUT
irrespective of the query's user_timeout. -/
def pathResultManagerRun (g : Graph) (q : NetworkSearchQuery)
    (mgr : Manager) (src tgt : Option StrNode) (rev : Bool)
    (gen : List (List StrNode)) (elapsed : List Rat) :
    Except String PathRunResult :=
  let fo := removeUsedFilters mgr q.get_filter_options
  match pathResultManagerEndpoints g fo mgr src tgt with
  | .error e => .error e
  | .ok (s, t) =>
    let r := buildPathsAux g fo mgr rev DEFAULT_TIMEOUT gen elapsed 0 []
    .ok { path_data := { source := s, target := t, paths := r.1 },
          timed_out := r.2 }

/-! Concrete fixtures: a three-node graph in the shape of the repository
test graph (a curated chain A -> B -> C through a chebi node between two
hgnc nodes, plus an edge A -> C whose only support is uncurated). -/

/-- Curated supporting statement of the edge A -> B. -/
def stmtCurAB : StmtDict :=
  { stmt_type := "Activation", evidence_count := 2, stmt_hash := 101,
    source_counts := [("reach", 2)], belief := 1, curated := true,
    english := "A activates B." }

/-- Curated supporting statement of the edge B -> C. -/
def stmtCurBC : StmtDict :=
  { stmt_type := "Activation", evidence_count := 1, stmt_hash := 102,
    source_counts := [("sparser", 1)], belief := 1, curated := true,
    english := "B activates C." }

/-- Uncurated supporting statement of the edge A -> C. -/
def stmtUncurAC : StmtDict :=
  { stmt_type := "Phosphorylation", evidence_count := 1, stmt_hash := 103,
    source_counts := [("reach", 1)], belief := 1, curated := false,
    english := "A phosphorylates C." }

/-- The example unsigned graph. -/
def egGraph : Graph :=
  { nodes := [(.unsigned "A", { ns := some "hgnc", id := some "1" }),
              (.unsigned "B", { ns := some "chebi", id := some "2" }),
              (.unsigned "C", { ns := some "hgnc", id := some "3" })]
    edges := [((.unsigned "A", .unsigned "B"),
                { statements := [stmtCurAB], belief := 1, weight := 1 }),
              ((.unsigned "B", .unsigned "C"),
                { statements := [stmtCurBC], belief := 1, weight := 1 }),
              ((.unsigned "A", .unsigned "C"),
                { statements := [stmtUncurAC], belief := 1, weight := 2 })] }

/-- Open BFS query with curated_db_only set (claim C1). -/
def c1query : NetworkSearchQuery :=
  { source := "A", curated_db_only := true }

/-- Two-endpoint query with user_timeout = 0 (claim C2). -/
def c2query : NetworkSearchQuery :=
  { source := "A", target := "B", user_timeout := 0 }

/-- Two-endpoint query whose endpoints are outside allowed_ns (claim
C4); allowed_ns is stored lowercased by the model validation. -/
def c4query : NetworkSearchQuery :=
  { source := "A", target := "C", allowed_ns := ["chebi"] }

/-- Decidable equality on Except values, so concrete pipeline runs can
be checked by evaluation. -/
instance exceptDecEq {ε α : Type} [DecidableEq ε] [DecidableEq α] :
    DecidableEq (Except ε α) := fun x y =>
  match x, y with
  | .ok a, .ok b =>
    if h : a = b then isTrue (by rw [h])
    else isFalse (by intro hc; cases hc; exact h rfl)
  | .error e, .error f =>
    if h : e = f then isTrue (by rw [h])
    else isFalse (by intro hc; cases hc; exact h rfl)
  | .ok _, .error _ => isFalse (by intro hc; cases hc)
  | .error _, .ok _ => isFalse (by intro hc; cases hc)

/-- Placeholder node used only as a default for total list access in
witness statements. -/
def dummyNode : Node := { name := "", nameSpace := "", identifier := "" }

/-- Placeholder edge data used only as a default for total access. -/
def dummyEdgeData : EdgeData :=
  { edge := (dummyNode, dummyNode), statements := [], belief := 0,
    weight := 0, db_url_edge := "" }

/-- Placeholder by-hash edge data used only as a default. -/
def dummyEdgeDataByHash : EdgeDataByHash :=
  { edge := (dummyNode, dummyNode), stmts := [], belief := 0, weight := 0,
    db_url_edge := "" }

/-- An unweighted SSP run over the single raw path A -> B, used to
instantiate the path-alignment invariant on a concrete output. -/
def c6wRes : List (Nat × List Path) :=
  (buildPathsAux egGraph {} .sspMgr false 30
    [[.unsigned "A", .unsigned "B"]] [0, 0] 0 []).1

/-- The single length-bucket of c6wRes. -/
def c6wPair : Nat × List Path := c6wRes.headD (0, [])

/-- The single built path of c6wRes. -/
def c6wPath : Path := c6wPair.2.headD { path := [], edge_data := [] }

/-- A concrete assembled edge for the statement-nonempty witness. -/
def c7wEdge : EdgeData :=
  (getEdgeData egGraph {} .sspMgr (.unsigned "A") (.unsigned "B")).getD
    dummyEdgeData

/-- A concrete assembled by-hash edge for the statement-nonempty
witness, using the subgraph manager's hard-coded filter options. -/
def c7wEdgeByHash : EdgeDataByHash :=
  (getEdgeDataByHash egGraph (removeUsedFilters .subgraphMgr {})
    (Sum.inr (.unsigned "A")) (Sum.inr (.unsigned "B"))).getD
    dummyEdgeDataByHash

/-! Helper lemmas about the path-building loop. -/

/-- Shape of a successfully built EdgeData: its endpoints are the two
resolved nodes, its statements are the grouped survivors, and those are
nonempty. -/
theorem assembleEdgeData_some {a_node b_node : Node} {ea : EdgeAttr}
    {stmt_dict : List (String × List StmtData)} {ed : EdgeData}
    (h : assembleEdgeData a_node b_node ea stmt_dict = some ed) :
    ed.edge = (a_node, b_node) ∧ ed.statements = stmt_dict ∧
      stmt_dict ≠ [] := by
  unfold assembleEdgeData at h
  split at h
  · cases h
  · rename_i hne
    injection h with h
    refine ⟨?_, ?_, ?_⟩
    · rw [← h]
    · rw [← h]
    · simpa using hne

/-- Shape of a successfully built EdgeDataByHash: nonempty by-hash
statement map. -/
theorem assembleEdgeDataByHash_some {a_node b_node : Node} {ea : EdgeAttr}
    {stmt_dict : List (Int × StmtData)} {edh : EdgeDataByHash}
    (h : assembleEdgeDataByHash a_node b_node ea stmt_dict = some edh) :
    edh.stmts = stmt_dict ∧ stmt_dict ≠ [] := by
  unfold assembleEdgeDataByHash at h
  split at h
  · cases h
  · rename_i hne
    injection h with h
    refine ⟨?_, ?_⟩
    · rw [← h]
    · simpa using hne

/-- A successfully assembled edge records the resolved endpoint nodes:
the EdgeData endpoints are exactly what _get_node produced for the two
handles. -/
theorem getEdgeData_nodes {g : Graph} {fo : FilterOptions} {mgr : Manager}
    {a b : StrNode} {ed : EdgeData}
    (h : getEdgeData g fo mgr a b = some ed) :
    getNode g fo mgr a true = some ed.edge.1 ∧
    getNode g fo mgr b true = some ed.edge.2 := by
  unfold getEdgeData at h
  split at h
  · rename_i a_node b_node ha hb
    split at h
    · cases h
    · have hedge := (assembleEdgeData_some h).1
      rw [hedge]
      exact ⟨ha, hb⟩
  · cases h

/-- Unfolding one step of the edge loop. -/
theorem buildEdgeDataList_cons {g : Graph} {fo : FilterOptions}
    {mgr : Manager} {s o : StrNode} {prs : List (StrNode × StrNode)}
    {eds : List EdgeData}
    (h : buildEdgeDataList g fo mgr ((s, o) :: prs) = some eds) :
    ∃ ed eds', getEdgeData g fo mgr s o = some ed ∧
      buildEdgeDataList g fo mgr prs = some eds' ∧ eds = ed :: eds' := by
  unfold buildEdgeDataList at h
  split at h
  · cases h
  · rename_i ed hge
    split at h
    · cases h
    · rcases Option.map_eq_some'.mp h with ⟨eds', hrest, heq⟩
      exact ⟨ed, eds', hge, hrest, heq.symm⟩

/-- Consecutive edges assembled from the consecutive node pairs of one
raw path share their middle node: the object of each edge equals the
subject of the next one (because _get_node is a deterministic lookup
on the shared handle). -/
theorem buildEdgeDataList_chain (g : Graph) (fo : FilterOptions)
    (mgr : Manager) :
    ∀ (pl : List StrNode) (eds : List EdgeData),
      buildEdgeDataList g fo mgr (pl.zip pl.tail) = some eds →
      List.Chain' (fun x y : EdgeData => x.edge.2 = y.edge.1) eds := by
  intro pl
  induction pl with
  | nil =>
    intro eds h
    have h' : (some [] : Option (List EdgeData)) = some eds := h
    rw [← Option.some.inj h']
    exact List.chain'_nil
  | cons a tl ih =>
    intro eds h
    cases tl with
    | nil =>
      have h' : (some [] : Option (List EdgeData)) = some eds := h
      rw [← Option.some.inj h']
      exact List.chain'_nil
    | cons b rest =>
      simp only [List.tail_cons, List.zip_cons_cons] at h
      obtain ⟨ed, eds', hge, hrest, heq⟩ := buildEdgeDataList_cons h
      subst heq
      have hchain' : List.Chain' (fun x y : EdgeData => x.edge.2 = y.edge.1)
          eds' := by
        have := ih eds'
        simp only [List.tail_cons] at this
        exact this hrest
      cases eds' with
      | nil => simp
      | cons ed' rest' =>
        refine List.chain'_cons.mpr ⟨?_, hchain'⟩
        cases rest with
        | nil => simp [buildEdgeDataList] at hrest
        | cons c rest2 =>
          simp only [List.zip_cons_cons] at hrest
          obtain ⟨ed2, eds2, hge2, _, heq2⟩ := buildEdgeDataList_cons hrest
          have h1 := (getEdgeData_nodes hge).2
          have h2 := (getEdgeData_nodes hge2).1
          rw [h1] at h2
          injection h2 with h2
          rw [h2]
          injection heq2 with he1 _
          rw [he1]

/-- Positional access into the node path built alongside a chain of
edges: the i-th edge's endpoints sit at positions i and i + 1. -/
theorem nodePathOf_get (e : EdgeData) (es : List EdgeData)
    (h : List.Chain' (fun x y : EdgeData => x.edge.2 = y.edge.1) (e :: es)) :
    ∀ (i : Nat) (ed0 : EdgeData), (e :: es).get? i = some ed0 →
      (nodePathOf e es).get? i = some ed0.edge.1 ∧
      (nodePathOf e es).get? (i + 1) = some ed0.edge.2 := by
  induction es generalizing e with
  | nil =>
    intro i ed0 hi
    cases i with
    | zero =>
      injection hi with hi
      subst hi
      exact ⟨rfl, rfl⟩
    | succ j =>
      cases j <;> cases hi
  | cons f fs ih =>
    intro i ed0 hi
    have hcons : nodePathOf e (f :: fs) = e.edge.1 :: nodePathOf f fs := by
      simp only [nodePathOf, List.map_cons, List.getLastD_cons,
        List.cons_append]
    have hchain := List.chain'_cons.mp h
    cases i with
    | zero =>
      injection hi with hi
      subst hi
      constructor
      · rw [hcons]; rfl
      · rw [hcons]
        have hhead : (nodePathOf f fs).get? 0 = some f.edge.1 := by
          simp [nodePathOf]
        simp only [List.get?_cons_succ]
        rw [hhead, hchain.1]
    | succ j =>
      simp only [List.get?_cons_succ] at hi
      have := ih f hchain.2 j ed0 hi
      rw [hcons]
      simpa only [List.get?_cons_succ] using this

/-- The node count of the built node path is the edge count plus one. -/
theorem nodePathOf_length (e : EdgeData) (es : List EdgeData) :
    (nodePathOf e es).length = es.length + 2 := by
  simp [nodePathOf]

/-- Shape of a successfully assembled path: a nonempty chain of edges
with the node path built from it. -/
theorem assemblePath_spec {g : Graph} {fo : FilterOptions} {mgr : Manager}
    {pl : List StrNode} {p : Path}
    (h : assemblePath g fo mgr pl = some p) :
    ∃ e es, p.edge_data = e :: es ∧ p.path = nodePathOf e es ∧
      List.Chain' (fun x y : EdgeData => x.edge.2 = y.edge.1) (e :: es) := by
  unfold assemblePath at h
  cases hb : buildEdgeDataList g fo mgr (pl.zip pl.tail) with
  | none => rw [hb] at h; cases h
  | some eds =>
    rw [hb] at h
    cases eds with
    | nil => cases h
    | cons e es =>
      injection h with h
      subst h
      exact ⟨e, es, rfl, rfl, buildEdgeDataList_chain g fo mgr pl _ hb⟩

/-- Members of the paths dict after indexing one more path: either the
new path itself or a member of an existing bucket with the same key. -/
theorem insertPath_mem {acc : List (Nat × List Path)} {k0 k : Nat}
    {pd p : Path} {ps : List Path}
    (hk : (k, ps) ∈ insertPath acc k0 pd) (hp : p ∈ ps) :
    p = pd ∨ ∃ ps', (k, ps') ∈ acc ∧ p ∈ ps' := by
  unfold insertPath at hk
  split at hk
  · obtain ⟨kv, hkv, heq⟩ := List.mem_map.mp hk
    by_cases hkk : (kv.1 == k0) = true
    · rw [if_pos hkk] at heq
      have hk1 : kv.1 = k := congrArg Prod.fst heq
      have hps : kv.2 ++ [pd] = ps := congrArg Prod.snd heq
      rw [← hps] at hp
      rcases List.mem_append.mp hp with hin | hone
      · right
        refine ⟨kv.2, ?_, hin⟩
        rw [← hk1]
        exact hkv
      · left
        simpa using hone
    · rw [if_neg hkk] at heq
      right
      refine ⟨ps, ?_, hp⟩
      rw [← heq]
      exact hkv
  · rcases List.mem_append.mp hk with hin | hone
    · right
      exact ⟨ps, hin, hp⟩
    · left
      have : (k, ps) = (k0, [pd]) := by simpa using hone
      have hps : ps = [pd] := congrArg Prod.snd this
      rw [hps] at hp
      simpa using hp

/-- Every path in the output of the _build_paths loop was either in the
starting accumulator or produced by the per-path edge assembly. -/
theorem buildPathsAux_mem (g : Graph) (fo : FilterOptions) (mgr : Manager)
    (rev : Bool) (timeout : Rat) :
    ∀ (gen : List (List StrNode)) (elapsed : List Rat) (n : Nat)
      (acc : List (Nat × List Path)) (k : Nat) (ps : List Path) (p : Path),
      (k, ps) ∈ (buildPathsAux g fo mgr rev timeout gen elapsed n acc).1 →
      p ∈ ps →
      (∃ ps', (k, ps') ∈ acc ∧ p ∈ ps') ∨
        ∃ pl, assemblePath g fo mgr pl = some p := by
  intro gen
  induction gen with
  | nil =>
    intro elapsed n acc k ps p hk hp
    unfold buildPathsAux at hk
    split at hk
    · exact Or.inl ⟨ps, hk, hp⟩
    · split at hk
      · exact Or.inl ⟨ps, hk, hp⟩
      · exact Or.inl ⟨ps, hk, hp⟩
  | cons p0 rest ih =>
    intro elapsed n acc k ps p hk hp
    unfold buildPathsAux at hk
    split at hk
    · exact Or.inl ⟨ps, hk, hp⟩
    · split at hk
      · exact Or.inl ⟨ps, hk, hp⟩
      · dsimp only at hk
        split at hk
        · exact Or.inl ⟨ps, hk, hp⟩
        · exact ih _ _ _ _ _ _ hk hp
        · split at hk
          · exact ih _ _ _ _ _ _ hk hp
          · rename_i pd hpd
            rcases ih _ _ _ _ _ _ hk hp with ⟨ps', hin, hmem⟩ | hfound
            · rcases insertPath_mem hin hmem with heq | ⟨ps2, hin2, hmem2⟩
              · subst heq
                exact Or.inr ⟨_, hpd⟩
              · exact Or.inl ⟨ps2, hin2, hmem2⟩
            · exact Or.inr hfound

/-- C6: every returned Path with k nodes has an edge_data sequence of
length exactly k - 1, and for each index i, edge_data[i].edge equals the
node pair (path[i], path[i+1]).  Stated for every path in the output of
the _build_paths loop, for every manager, filter set, direction,
timeout, generator output and clock trace. -/
theorem c6_path_edge_alignment (g : Graph) (fo : FilterOptions)
    (mgr : Manager) (rev : Bool) (timeout : Rat)
    (gen : List (List StrNode)) (elapsed : List Rat)
    (k : Nat) (ps : List Path) (p : Path)
    (hk : (k, ps) ∈ (buildPathsAux g fo mgr rev timeout gen elapsed 0 []).1)
    (hp : p ∈ ps) :
    p.edge_data.length + 1 = p.path.length ∧
    ∀ (i : Nat) (ed0 : EdgeData), p.edge_data.get? i = some ed0 →
      p.path.get? i = some ed0.edge.1 ∧
      p.path.get? (i + 1) = some ed0.edge.2 := by
  rcases buildPathsAux_mem g fo mgr rev timeout gen elapsed 0 [] k ps p hk hp
    with ⟨ps', hin, _⟩ | ⟨pl, hasm⟩
  · simp at hin
  · obtain ⟨e, es, hed, hpath, hchain⟩ := assemblePath_spec hasm
    constructor
    · rw [hed, hpath, nodePathOf_length]
      simp
    · intro i ed0 hi
      rw [hed] at hi
      rw [hpath]
      exact nodePathOf_get e es hchain i ed0 hi

/-- C6 witness: the invariant instantiated on the concrete SSP run
c6wRes over the example graph. -/
theorem c6_path_edge_alignment_witness :
    c6wPath.edge_data.length + 1 = c6wPath.path.length ∧
    ∀ (i : Nat) (ed0 : EdgeData), c6wPath.edge_data.get? i = some ed0 →
      c6wPath.path.get? i = some ed0.edge.1 ∧
      c6wPath.path.get? (i + 1) = some ed0.edge.2 :=
  c6_path_edge_alignment egGraph {} .sspMgr false 30
    [[.unsigned "A", .unsigned "B"]] [0, 0] c6wPair.1 c6wPair.2 c6wPath
    (by decide) (by decide)

/-- C7: no EdgeData returned by a result manager has an empty
statements mapping: both edge-assembly helpers (_get_edge_data, used by
the path and shared-interactors managers, and _get_edge_data_by_hash,
used by the subgraph manager) drop an edge whose statements were all
filtered out instead of returning it. -/
theorem c7_edge_statements_nonempty (g : Graph) (fo fo2 : FilterOptions)
    (mgr : Manager) (a b : StrNode) (a2 b2 : Sum Node StrNode)
    (ed : EdgeData) (edh : EdgeDataByHash)
    (h1 : getEdgeData g fo mgr a b = some ed)
    (h2 : getEdgeDataByHash g fo2 a2 b2 = some edh) :
    ed.statements ≠ [] ∧ edh.stmts ≠ [] := by
  constructor
  · unfold getEdgeData at h1
    split at h1
    · split at h1
      · cases h1
      · obtain ⟨_, hst, hne⟩ := assembleEdgeData_some h1
        rw [hst]
        exact hne
    · cases h1
  · unfold getEdgeDataByHash at h2
    dsimp only at h2
    split at h2
    · split at h2
      · cases h2
      · obtain ⟨hst, hne⟩ := assembleEdgeDataByHash_some h2
        rw [hst]
        exact hne
    · cases h2

/-- C7 witness: both assembly helpers evaluated on a concrete edge of
the example graph produce nonempty statement maps. -/
theorem c7_edge_statements_nonempty_witness :
    c7wEdge.statements ≠ [] ∧ c7wEdgeByHash.stmts ≠ [] :=
  c7_edge_statements_nonempty egGraph {} (removeUsedFilters .subgraphMgr {})
    .sspMgr (.unsigned "A") (.unsigned "B")
    (Sum.inr (.unsigned "A")) (Sum.inr (.unsigned "B"))
    c7wEdge c7wEdgeByHash (by decide) (by decide)

/-- C8: reversing a query twice yields a query with the same query
hash: get_hash(reverse_search(reverse_search(q))) = get_hash(q), because
double reversal restores every field of the spec. -/
theorem c8_double_reverse_hash (q : NetworkSearchQuery) :
    (q.reverse_search.reverse_search).get_hash = q.get_hash := rfl

/-- C9: for a specification with exactly one of source/target set, the
planner dispatches the primary path query to open Dijkstra exactly when
the query is overall-weighted (weighted, or mesh ids given without
strict mesh filtering) and to BFS otherwise. -/
theorem c9_open_dispatch (q : NetworkSearchQuery)
    (h : (q.source = "" ∧ q.target ≠ "") ∨ (q.source ≠ "" ∧ q.target = "")) :
    mapToQueryType q =
      (if q.is_overall_weighted then QueryType.openDijkstraSearch
       else QueryType.bfsSearch) := by
  have hopen : queryHandlerOpen q = true := by
    rcases h with ⟨h1, h2⟩ | ⟨h1, h2⟩
    · have e1 : q.source.isEmpty = true := by
        rw [String.isEmpty_iff]; exact h1
      have e2 : q.target.isEmpty = false := by
        rw [← Bool.not_eq_true, String.isEmpty_iff]; exact h2
      simp [queryHandlerOpen, e1, e2]
    · have e1 : q.source.isEmpty = false := by
        rw [← Bool.not_eq_true, String.isEmpty_iff]; exact h1
      have e2 : q.target.isEmpty = true := by
        rw [String.isEmpty_iff]; exact h2
      simp [queryHandlerOpen, e1, e2]
  have hw : handlerIsWeighted q.weighted (!q.mesh_ids.isEmpty)
      q.strict_mesh_id_filtering = q.is_overall_weighted := by
    unfold handlerIsWeighted handlerIsContextWeighted
      NetworkSearchQuery.is_overall_weighted is_weighted is_context_weighted
    cases hm : q.mesh_ids.isEmpty <;>
      cases q.weighted <;>
      cases q.strict_mesh_id_filtering <;>
      simp [hm]
  unfold mapToQueryType
  rw [hopen, hw]
  cases q.is_overall_weighted <;> simp

/-- C9 witness: the dispatch equation instantiated on a weighted open
query (target only), which goes to open Dijkstra. -/
theorem c9_open_dispatch_witness :
    mapToQueryType { target := "B", weighted := true } =
      (if ({ target := "B", weighted := true } :
            NetworkSearchQuery).is_overall_weighted then
         QueryType.openDijkstraSearch
       else QueryType.bfsSearch) :=
  c9_open_dispatch { target := "B", weighted := true }
    (Or.inl ⟨rfl, by decide⟩)

/-- C10: with a sign specified and a non-empty node_blacklist, the
node-ignore set handed to the algorithms contains exactly (name, 0) and
(name, 1) for each blacklisted name; with no sign the name list is
passed through unchanged. -/
theorem c10_node_blacklist (q : NetworkSearchQuery) :
    (q.sign.isSome → q.node_blacklist ≠ [] →
      ∀ x : StrNode, x ∈ q.getNodeBlacklist ↔
        ∃ n ∈ q.node_blacklist,
          x = StrNode.signed n 0 ∨ x = StrNode.signed n 1) ∧
    (q.sign = none →
      q.getNodeBlacklist = q.node_blacklist.map StrNode.unsigned) := by
  constructor
  · intro hs hbl x
    unfold NetworkSearchQuery.getNodeBlacklist
    have h1 : q.node_blacklist.isEmpty = false := by
      simpa [List.isEmpty_iff] using hbl
    have h2 : q.sign.isNone = false := by
      cases hq : q.sign
      · rw [hq] at hs; cases hs
      · simp
    rw [h1, h2]
    simp only [Bool.or_self, Bool.false_eq_true, if_false, List.mem_flatMap,
      List.mem_cons, List.not_mem_nil, or_false]
  · intro hs
    unfold NetworkSearchQuery.getNodeBlacklist
    rw [hs]
    simp

/-- C10 witness: the signed product evaluated on a concrete signed
query with one blacklisted name, and the pass-through evaluated on an
unsigned query. -/
theorem c10_node_blacklist_witness :
    (StrNode.signed "X" 0 ∈
      ({ sign := some "+", node_blacklist := ["X"] } :
        NetworkSearchQuery).getNodeBlacklist) ∧
    ({ node_blacklist := ["X", "Y"] } :
        NetworkSearchQuery).getNodeBlacklist =
      [StrNode.unsigned "X", StrNode.unsigned "Y"] :=
  ⟨((c10_node_blacklist { sign := some "+", node_blacklist := ["X"] }).1
      (by decide) (by decide) (StrNode.signed "X" 0)).mpr
      ⟨"X", by decide, Or.inl rfl⟩,
   by
    have := (c10_node_blacklist { node_blacklist := ["X", "Y"] }).2 rfl
    simpa using this⟩

/-- C1 (code bug): for a BFS path query with curated_db_only = true,
uncurated statements reach the caller.  The planner sends the open query
to BFS; the edge filter the adapter builds for bfs_search delegates to
query.pass_stmt, whose body is a bare return True, so the uncurated edge
A -> C passes it; and the BFS result manager removed the curated filter
from its filter options (as already applied in the algorithm), so the
returned EdgeData contains a statement with curated = false. -/
theorem c1_bfs_curated_leak :
    c1query.curated_db_only = true ∧
    mapToQueryType c1query = QueryType.bfsSearch ∧
    (∃ f, getEdgeFilter c1query = some f ∧
      f egGraph (.unsigned "A") (.unsigned "C") = true) ∧
    ((buildPathsAux egGraph
        (removeUsedFilters .bfsMgr c1query.get_filter_options) .bfsMgr false
        DEFAULT_TIMEOUT [[.unsigned "A", .unsigned "C"]] [0, 0] 0 []).1.any
      (fun kv => kv.2.any (fun p => p.edge_data.any (fun ed =>
        ed.statements.any (fun ts => ts.2.any (fun sd =>
          !sd.curated)))))) = true :=
  ⟨rfl, by decide, ⟨_, rfl, by decide⟩, by decide⟩

/-- C2 (code bug): a path query with user_timeout = 0 neither times out
nor returns zero paths.  The user timeout is never handed to the result
manager (DEFAULT_TIMEOUT is used instead), and a zero timeout would be
falsy and skip the deadline check altogether (timeoutHit 0 never
fires); the run below returns timed_out = false and one path bucket. -/
theorem c2_zero_timeout_ignored :
    c2query.user_timeout = 0 ∧
    timeoutHit 0 1000 = false ∧
    (pathResultManagerRun egGraph c2query .sspMgr (some (.unsigned "A"))
        (some (.unsigned "B")) false [[.unsigned "A", .unsigned "B"]]
        [0, 0]).map (fun r => (r.timed_out, r.path_data.paths.length)) =
      .ok (false, 1) :=
  ⟨rfl, by decide, by decide⟩

/-- C3 counterexample: the all-defaults query (source and target both
absent) is accepted by model validation and mapped by the planner to
shortest-simple-paths, so the claimed rejection with a validation error
before any algorithm is invoked does not happen. -/
theorem c3_counterexample :
    networkSearchQueryValidate {} = .ok {} ∧
    mapToQueryType {} = QueryType.shortestSimplePaths := by
  constructor
  · rfl
  · decide

/-- C3 amended: a path query with both endpoints absent passes model
validation (no validator involves the endpoints), is dispatched to
shortest-simple-paths, and only fails afterwards, when the query's
result options raise InvalidParametersError (after the algorithm
adapter has run), not as a validation error. -/
theorem c3_amended (q : NetworkSearchQuery)
    (h1 : q.source = "") (h2 : q.target = "")
    (h3 : q.path_length.any (fun pl => pl < 1) = false)
    (h4 : ¬q.max_per_node < 1)
    (h5 : q.cull_best_node.any (fun cbn => cbn < 2) = false) :
    (∃ v, networkSearchQueryValidate q = .ok v) ∧
    mapToQueryType q = QueryType.shortestSimplePaths ∧
    (∃ msg, pathQueryResultOptions q = .error msg) := by
  have e1 : q.source.isEmpty = true := by rw [String.isEmpty_iff]; exact h1
  have e2 : q.target.isEmpty = true := by rw [String.isEmpty_iff]; exact h2
  refine ⟨?_, ?_, ?_⟩
  · unfold networkSearchQueryValidate
    rw [h3]
    simp only [Bool.false_eq_true, if_false]
    rw [if_neg h4, h5]
    simp only [Bool.false_eq_true, if_false]
    exact ⟨_, rfl⟩
  · unfold mapToQueryType queryHandlerOpen
    rw [e1, e2]
    simp
  · unfold pathQueryResultOptions pathQueryGetSourceNode
    rw [e1, e2]
    simp

/-- C3 amended witness: the amended behaviour evaluated on the
all-defaults query. -/
theorem c3_amended_witness :
    (∃ v, networkSearchQueryValidate {} = .ok v) ∧
    mapToQueryType {} = QueryType.shortestSimplePaths ∧
    (∃ msg, pathQueryResultOptions {} = .error msg) :=
  c3_amended {} rfl rfl (by decide) (by decide) (by decide)

/-- C4 (code bug): allowed-namespace filtering does not exempt the
search endpoints in SSP.  With allowed_ns = [chebi], the hgnc endpoints
A and C fail ShortestSimplePathsResultManager._pass_node inside the
edge assembly (apply_filter is true for every path node), so the whole
path A -> B -> C is dropped even though its interior node B is allowed:
the run returns zero paths. -/
theorem c4_endpoint_filtered :
    (pathResultManagerRun egGraph c4query .sspMgr (some (.unsigned "A"))
        (some (.unsigned "C")) false
        [[.unsigned "A", .unsigned "B", .unsigned "C"]] [0, 0]).map
      (fun r => (r.timed_out, r.path_data.paths)) = .ok (false, []) ∧
    getNode egGraph (removeUsedFilters .sspMgr c4query.get_filter_options)
      .sspMgr (.unsigned "A") true = none ∧
    (getNode egGraph (removeUsedFilters .sspMgr c4query.get_filter_options)
      .sspMgr (.unsigned "B") true).isSome = true := by
  refine ⟨by decide, by decide, by decide⟩

/-- C5 counterexample: an open path query whose single endpoint is not
in the graph does not complete with an empty result; the path result
manager raises ValueError instead. -/
theorem c5_counterexample :
    pathResultManagerEndpoints egGraph {} .bfsMgr
      (some (.unsigned "NOPE")) none =
      .error "Failed to set source and/or target" := by decide

/-- C5 amended: when at least one given endpoint resolves in the graph
the query proceeds without error (the unresolved endpoint becomes
None); when no given endpoint resolves, the result manager raises a
ValueError instead of returning an empty result. -/
theorem c5_amended (g : Graph) (fo : FilterOptions) (mgr : Manager)
    (src tgt : Option StrNode) (h : src.isSome ∨ tgt.isSome) :
    (((src.bind (fun x => getNode g fo mgr x false)).isSome ∨
      (tgt.bind (fun x => getNode g fo mgr x false)).isSome) →
      ∃ s t, pathResultManagerEndpoints g fo mgr src tgt = .ok (s, t)) ∧
    (((src.bind (fun x => getNode g fo mgr x false)) = none ∧
      (tgt.bind (fun x => getNode g fo mgr x false)) = none) →
      pathResultManagerEndpoints g fo mgr src tgt =
        .error "Failed to set source and/or target") := by
  have hgiven : (src.isNone && tgt.isNone) = false := by
    rcases h with h | h <;> rcases src with _ | s <;> rcases tgt with _ | t <;>
      simp_all
  constructor
  · intro hres
    have hcond : ((src.bind (fun x => getNode g fo mgr x false)).isNone &&
        (tgt.bind (fun x => getNode g fo mgr x false)).isNone) = false := by
      rcases hres with hres | hres
      · rcases Option.isSome_iff_exists.mp hres with ⟨v, hv⟩
        simp [hv]
      · rcases Option.isSome_iff_exists.mp hres with ⟨v, hv⟩
        simp [hv]
    unfold pathResultManagerEndpoints
    rw [hgiven]
    simp only [Bool.false_eq_true, if_false]
    rw [hcond]
    simp only [Bool.false_eq_true, if_false]
    exact ⟨_, _, rfl⟩
  · intro ⟨hs, ht⟩
    unfold pathResultManagerEndpoints
    rw [hgiven]
    simp only [Bool.false_eq_true, if_false]
    rw [hs, ht]
    simp

/-- C5 amended witness: one resolvable endpoint (A) next to an
unresolvable one completes without error on the example graph. -/
theorem c5_amended_witness :
    ∃ s t, pathResultManagerEndpoints egGraph {} .sspMgr
      (some (.unsigned "A")) (some (.unsigned "NOPE")) = .ok (s, t) :=
  (c5_amended egGraph {} .sspMgr (some (.unsigned "A"))
    (some (.unsigned "NOPE")) (Or.inl (by decide))).1 (Or.inl (by decide))

end IndraNet
